import Mathlib

/-
Verification of the empyricalRMT trim-and-unfold core against its design
specification.  The Python sources embedded here are
src/empyricalRMT/eigenvalues.py and src/empyricalRMT/rmt/ensemble.py.
Machine floats are modelled as real numbers; numpy arrays as lists of reals;
functions that may raise as Except-valued functions.
-/

open scoped BigOperators

noncomputable section

/-- Result type of unfolding, embedding the Python class Unfolded as
constructed in eigenvalues.py: original eigenvalues, unfolded values, and an
optional smoother closure. -/
structure Unfolded where
  originals : List ℝ
  unfolded : List ℝ
  smoother : Option (ℝ → ℝ)

/-- Equality of Unfolded values is componentwise (it is a plain record). -/
theorem Unfolded.ext_iff' (u v : Unfolded) :
    u = v ↔ u.originals = v.originals ∧ u.unfolded = v.unfolded ∧ u.smoother = v.smoother := by
  constructor
  · intro h; subst h; exact ⟨rfl, rfl, rfl⟩
  · intro ⟨h1, h2, h3⟩; cases u; cases v; simp_all

/-- Embedding of the SmoothMethod argument of Eigenvalues.unfold (the Python
code dispatches on the strings poly, spline, gompertz, goe). -/
inductive SmoothMethod where
  | poly
  | spline
  | gompertz
  | goe
deriving DecidableEq

/-- Embedding of numpy.linspace(a, b, n): n evenly spaced samples from a to b,
endpoint included. -/
def linspace (a b : ℝ) (n : ℕ) : List ℝ :=
  if n = 0 then []
  else if n = 1 then [a]
  else (List.range n).map (fun i : ℕ => a + (i : ℝ) * (b - a) / ((n : ℝ) - 1))

/-- Embedding of Wigner semicircle radius, end = np.sqrt(2 * N) in
Eigenvalues.unfold_goe. -/
def goeEnd (N : ℕ) : ℝ := Real.sqrt (2 * N)

/-- Embedding of the level density closure __R1 in Eigenvalues.unfold_goe:
R1(x) = (1/pi) * sqrt(2N - x*x) when the absolute value of x is below the
semicircle radius, else 0. -/
def R1 (N : ℕ) (x : ℝ) : ℝ :=
  if |x| < goeEnd N then (1 / Real.pi) * Real.sqrt (2 * N - x * x) else 0

/-- Embedding of MAX = quad(__R1, -end, end) in Eigenvalues.unfold_goe: the
total mass of the level density over the semicircle support (the adaptive
quadrature of the source is modelled as the exact integral). -/
def goeMax (N : ℕ) : ℝ := ∫ t in (-goeEnd N)..(goeEnd N), R1 N t

/-- Embedding of the closure smooth_goe in Eigenvalues.unfold_goe: return MAX
for x above the semicircle radius, else the integral of the level density
from -end to x. -/
def smoothGoe (N : ℕ) (x : ℝ) : ℝ :=
  if x > goeEnd N then goeMax N else ∫ t in (-goeEnd N)..x, R1 N t

/-- Embedding of Eigenvalues.unfold_goe: apply smooth_goe to every eigenvalue,
sort the results ascending (np.sort), and wrap them together with the original
eigenvalues in an Unfolded (no smoother closure is stored). -/
def unfoldGoe (eigs : List ℝ) : Unfolded :=
  ⟨eigs, List.insertionSort (· ≤ ·) (eigs.map (smoothGoe eigs.length)), none⟩

/-- Formalisation of the specification sentence for semicircle unfolding: the
unfolded value for eigenvalue x is the definite integral of the level density
from -R to min(x, R). -/
def goeUnfoldSpecFn (N : ℕ) (x : ℝ) : ℝ :=
  ∫ t in (-goeEnd N)..(min x (goeEnd N)), R1 N t

/-- Embedding of Eigenvalues.unfold.  The Smoother.fit call and the
emd_detrend collaborator live in files that are not part of the embedded
sources, so they enter as explicit function parameters: fit returns the fitted
(unfolded) values together with the smoother closure, exactly the data the
source destructures from Smoother(eigs).fit(...).  The goe branch returns
self.unfold_goe() before any of degree, spline_smooth or detrend is used. -/
def unfold (fit : List ℝ → SmoothMethod → ℕ → ℝ → List ℝ × (ℝ → ℝ))
    (emdDetrend : List ℝ → List ℝ) (eigs : List ℝ) (smoother : SmoothMethod)
    (degree : ℕ) (splineSmooth : ℝ) (detrend : Bool) : Unfolded :=
  match smoother with
  | SmoothMethod.goe => unfoldGoe eigs
  | _ =>
    let r := fit eigs smoother degree splineSmooth
    let u := if detrend then emdDetrend r.1 else r.1
    ⟨eigs, List.insertionSort (· ≤ ·) u, some r.2⟩

/-- Embedding of the argument record handed to TrimReport by
Eigenvalues.trim_unfold_auto (the fields the source actually passes). -/
structure TrimReportCfg where
  values : List ℝ
  maxTrim : ℝ
  maxIters : ℕ
  polyDegrees : List ℕ
  splineSmooths : List ℝ
  splineDegrees : List ℕ
  gompertz : Bool
  outlierTol : ℝ

/-- Embedding of Eigenvalues.trim_unfold_auto.  TrimReport and its method
_get_autounfold_vals live in trim.py, which is not part of the embedded
sources; they enter as the black-box parameter autounfoldVals, which receives
exactly the configuration record the source passes to TrimReport and returns
the pair (orig_trimmed, unfolded).  Note that the source never passes
prioritizeSmoother anywhere: it is accepted and then unused. -/
def trimUnfoldAuto (autounfoldVals : TrimReportCfg → List ℝ × List ℝ)
    (values : List ℝ) (maxTrim : ℝ) (maxIters : ℕ) (polyDegrees : List ℕ)
    (splineSmooths : List ℝ) (splineDegrees : List ℕ) (gompertz : Bool)
    (prioritizeSmoother : Bool) (outlierTol : ℝ) : Unfolded :=
  let r := autounfoldVals
    ⟨values, maxTrim, maxIters, polyDegrees, splineSmooths, splineDegrees,
      gompertz, outlierTol⟩
  ⟨r.1, r.2, none⟩

/-- Embedding of the Trimmed result as returned by Eigenvalues.trim_manually:
the slice eigs[start:end] of the sorted eigenvalues. -/
structure Trimmed where
  vals : List ℝ

/-- Embedding of Eigenvalues.get_best_trimmed.  TrimReport.best_overall lives
in trim.py, which is not part of the embedded sources; it enters as the
black-box parameter bestIdx mapping the TrimReport configuration built in each
branch to the (start, end) indices the source extracts from best_indices[0].
The final else branch of the source raises ValueError with the literal message
Unknown smoother. -/
def getBestTrimmed (bestIdx : TrimReportCfg → ℕ × ℕ) (vals : List ℝ)
    (smoother : String) (degree : ℕ) (splineSmooth : ℝ) (maxIters : ℕ)
    (maxTrim : ℝ) (outlierTol : ℝ) : Except String Trimmed :=
  if smoother = "poly" then
    let r := bestIdx ⟨vals, maxTrim, maxIters, [degree], [], [], false, outlierTol⟩
    Except.ok ⟨(vals.drop r.1).take (r.2 - r.1)⟩
  else if smoother = "spline" then
    let r := bestIdx ⟨vals, maxTrim, maxIters, [], [splineSmooth], [degree], false, outlierTol⟩
    Except.ok ⟨(vals.drop r.1).take (r.2 - r.1)⟩
  else if smoother = "gompertz" then
    let r := bestIdx ⟨vals, maxTrim, maxIters, [], [], [], true, outlierTol⟩
    Except.ok ⟨(vals.drop r.1).take (r.2 - r.1)⟩
  else Except.error "Unknown smoother."

/-- Helper for inspecting error messages: whether the pattern is an initial
segment of the text, over character lists. -/
def startsWithChars : List Char → List Char → Bool
  | [], _ => true
  | _ :: _, [] => false
  | a :: as, b :: bs => decide (a = b) && startsWithChars as bs

/-- Helper for inspecting error messages: whether the pattern occurs starting
at some position of the text, over character lists. -/
def occursInChars (pat : List Char) : List Char → Bool
  | [] => decide (pat = [])
  | c :: rest => startsWithChars pat (c :: rest) || occursInChars pat rest

/-- Predicate on an error message: it mentions the substring sub somewhere. -/
def mentions (msg sub : String) : Bool := occursInChars sub.data msg.data

/-- Predicate on an error message: it names the smoother parameter. -/
def namesSmootherParam (msg : String) : Bool := mentions msg "smoother"

/-- Predicate on an error message: it states the constraint violated by a bad
smoother value, i.e. it mentions at least one of the allowed values poly,
spline, gompertz, or phrases a requirement with the word must. -/
def statesSmootherConstraint (msg : String) : Bool :=
  mentions msg "poly" || mentions msg "spline" ||
    mentions msg "gompertz" || mentions msg "must"

/-- Embedding of the Eigenvalues record constructed by
Eigenvalues.__init__ (the per-instance data set by the constructor). -/
structure Eigenvalues where
  vals : List ℝ
  seriesT : Option ℕ
  seriesN : Option ℕ

/-- Modelled from the spec: the base-class constructor EigVals.__init__ (file
_eigvals.py is not among the embedded sources).  Per the data model section,
an EigenvalueSet is kept sorted ascending by every producer, so the base
constructor stores the input values in ascending order. -/
def eigvalsInit (eigs : List ℝ) : List ℝ := List.insertionSort (· ≤ ·) eigs

/-- Embedding of Eigenvalues.__init__ with the module-level flag
_WARNED_SMALL passed as explicit state.  Returns the constructed object, the
new value of the flag, and whether the small-sample warning fired: the
warning fires when the input has fewer than 50 elements and the flag was not
yet set, and the flag is then set. -/
def mkEigenvalues (warned : Bool) (eigs : List ℝ) : Eigenvalues × Bool × Bool :=
  let doWarn := decide (eigs.length < 50) && !warned
  (⟨eigvalsInit eigs, none, none⟩, warned || doWarn, doWarn)

/-- Modelled from the spec: the iterative outlier trim search of
OutlierTrimSearch (the implementation lives in trim.py, which is not among the
embedded sources).  The step parameter abstracts one round of histogram-based
outlier detection, proposing the next (smaller) window or nothing when no
element scores as an outlier; iteration also stops when the iteration budget
is exhausted or the trimmed fraction would exceed maxTrim. -/
def trimIter (step : ℕ × ℕ → Option (ℕ × ℕ)) (maxTrim : ℝ) (len : ℕ) :
    ℕ → ℕ × ℕ → List (ℕ × ℕ)
  | 0, _ => []
  | fuel + 1, w =>
    match step w with
    | none => []
    | some w' =>
      if (len - (w'.2 - w'.1) : ℝ) ≤ maxTrim * len then
        w' :: trimIter step maxTrim len fuel w'
      else []

/-- Modelled from the spec: the candidate-window sequence of OutlierTrimSearch
(trim.py is not among the embedded sources).  The full window [0, length) is
always the first candidate, and maxIters bounds the number of further
outlier-detection iterations. -/
def trimSearch (step : ℕ × ℕ → Option (ℕ × ℕ)) (maxTrim : ℝ) (maxIters : ℕ)
    (eigs : List ℝ) : List (ℕ × ℕ) :=
  (0, eigs.length) :: trimIter step maxTrim eigs.length maxIters (0, eigs.length)

/-- Embedding of np.euler_gamma (the Euler-Mascheroni constant). -/
def eulerGamma : ℝ := Real.eulerMascheroniConstant

/-- Embedding of the spacing grid shared by the nnsd and nnnsd functions of
ensemble.py: the explicit spacings array when one is given, else a linspace
over spacings_range. -/
def spacingGrid (r : ℝ × ℝ) (nPoints : ℕ) (spacings : Option (List ℝ)) : List ℝ :=
  spacings.getD (linspace r.1 r.2 nPoints)

/-- Embedding of the L grid shared by the spectral_rigidity and
level_variance functions of ensemble.py. -/
def lGrid (minL maxL : ℝ) (gridSize : ℕ) (L : Option (List ℝ)) : List ℝ :=
  L.getD (linspace minL maxL gridSize)

/-- Embedding of Poisson.nnsd from ensemble.py: exp(-s) over the grid. -/
def Poisson.nnsd (r : ℝ × ℝ) (nPoints : ℕ) (spacings : Option (List ℝ)) :
    Except String (List ℝ) :=
  Except.ok ((spacingGrid r nPoints spacings).map fun s => Real.exp (-s))

/-- Embedding of the inner closure brody_dist of Poisson.nnnsd from
ensemble.py (real powers model the ** of the source). -/
def brodyDist (s beta : ℝ) : ℝ :=
  let b1 := beta + 1
  let alpha := Real.Gamma ((beta + 2) / b1) ^ b1
  b1 * alpha * s ^ beta * Real.exp (-(alpha * s ^ b1))

/-- Embedding of Poisson.nnnsd from ensemble.py: the Brody distribution with
beta = 0.6 over the grid (the source also emits a non-fatal heuristic
warning, which does not affect the returned array). -/
def Poisson.nnnsd (r : ℝ × ℝ) (nPoints : ℕ) (spacings : Option (List ℝ)) :
    Except String (List ℝ) :=
  Except.ok ((spacingGrid r nPoints spacings).map fun s => brodyDist s 0.6)

/-- Embedding of Poisson.spectral_rigidity from ensemble.py: L / 15 / 2. -/
def Poisson.spectral_rigidity (minL maxL : ℝ) (gridSize : ℕ)
    (L : Option (List ℝ)) : Except String (List ℝ) :=
  Except.ok ((lGrid minL maxL gridSize L).map fun s => s / 15 / 2)

/-- Embedding of Poisson.level_variance from ensemble.py: L / 2. -/
def Poisson.level_variance (minL maxL : ℝ) (gridSize : ℕ)
    (L : Option (List ℝ)) : Except String (List ℝ) :=
  Except.ok ((lGrid minL maxL gridSize L).map fun s => s / 2)

/-- Embedding of GOE.nnsd from ensemble.py:
(pi s / 2) exp(-(pi/4) s^2) over the grid. -/
def GOE.nnsd (r : ℝ × ℝ) (nPoints : ℕ) (spacings : Option (List ℝ)) :
    Except String (List ℝ) :=
  Except.ok ((spacingGrid r nPoints spacings).map fun s =>
    Real.pi * s / 2 * Real.exp (-(Real.pi / 4) * s * s))

/-- Embedding of GOE.nnnsd from ensemble.py: when no explicit spacings are
given the linspace grid is divided by two (mean spacing of the next-nearest
spacings), and the GOE next-nearest density is applied. -/
def GOE.nnnsd (r : ℝ × ℝ) (nPoints : ℕ) (spacings : Option (List ℝ)) :
    Except String (List ℝ) :=
  let s := match spacings with
    | some sp => sp
    | none => (linspace r.1 r.2 nPoints).map (fun x => x / 2)
  Except.ok (s.map fun x =>
    2 ^ 18 / (3 ^ 6 * Real.pi ^ 3) * x ^ 4 * Real.exp (-(64 / (9 * Real.pi) * (x * x))))

/-- Embedding of GOE.spectral_rigidity from ensemble.py. -/
def GOE.spectral_rigidity (minL maxL : ℝ) (gridSize : ℕ)
    (L : Option (List ℝ)) : Except String (List ℝ) :=
  Except.ok ((lGrid minL maxL gridSize L).map fun s =>
    1 / Real.pi ^ 2 *
      (Real.log (2 * Real.pi * s) + eulerGamma - 5 / 4 - Real.pi ^ 2 / 8))

/-- Embedding of GOE.level_variance from ensemble.py. -/
def GOE.level_variance (minL maxL : ℝ) (gridSize : ℕ)
    (L : Option (List ℝ)) : Except String (List ℝ) :=
  Except.ok ((lGrid minL maxL gridSize L).map fun s =>
    2 / Real.pi ^ 2 *
      (Real.log (2 * Real.pi * s) + eulerGamma + 1 - Real.pi ^ 2 / 8))

/-- Embedding of GUE.nnsd from ensemble.py: note the source builds its default
grid with 10000 points, not n_points. -/
def GUE.nnsd (r : ℝ × ℝ) (nPoints : ℕ) (spacings : Option (List ℝ)) :
    Except String (List ℝ) :=
  let s := spacings.getD (linspace r.1 r.2 10000)
  Except.ok (s.map fun x =>
    32 / Real.pi ^ 2 * (x * x) * Real.exp (-(4 * x * x) / Real.pi))

/-- Embedding of GUE.nnnsd from ensemble.py: the body is a bare raise of
NotImplementedError. -/
def GUE.nnnsd (r : ℝ × ℝ) (nPoints : ℕ) (spacings : Option (List ℝ)) :
    Except String (List ℝ) :=
  Except.error "NotImplementedError"

/-- Embedding of GUE.spectral_rigidity from ensemble.py. -/
def GUE.spectral_rigidity (minL maxL : ℝ) (gridSize : ℕ)
    (L : Option (List ℝ)) : Except String (List ℝ) :=
  Except.ok ((lGrid minL maxL gridSize L).map fun s =>
    1 / (2 * Real.pi ^ 2) * (Real.log (2 * Real.pi * s) + eulerGamma - 5 / 4))

/-- Embedding of GUE.level_variance from ensemble.py. -/
def GUE.level_variance (minL maxL : ℝ) (gridSize : ℕ)
    (L : Option (List ℝ)) : Except String (List ℝ) :=
  Except.ok ((lGrid minL maxL gridSize L).map fun s =>
    1 / Real.pi ^ 2 * (Real.log (2 * Real.pi * s) + eulerGamma + 1))

/-- Embedding of the GSE nearest-neighbour density applied inside GSE.nnsd. -/
def gseNNSDdensity (s : ℝ) : ℝ :=
  262144 / (729 * Real.pi ^ 3) * s ^ 4 *
    Real.exp (-(64 / (9 * Real.pi) * (s * s)))

/-- Embedding of GSE.nnsd from ensemble.py: note the source builds its default
grid as np.linspace(spacings_range[0], spacings_range[0], 10000), a constant
grid of 10000 copies of the left endpoint, ignoring n_points and the right
endpoint. -/
def GSE.nnsd (r : ℝ × ℝ) (nPoints : ℕ) (spacings : Option (List ℝ)) :
    Except String (List ℝ) :=
  let s := spacings.getD (linspace r.1 r.1 10000)
  Except.ok (s.map gseNNSDdensity)

/-- Embedding of GSE.nnnsd from ensemble.py: the body is a bare raise of
NotImplementedError. -/
def GSE.nnnsd (r : ℝ × ℝ) (nPoints : ℕ) (spacings : Option (List ℝ)) :
    Except String (List ℝ) :=
  Except.error "NotImplementedError"

/-- Embedding of GSE.spectral_rigidity from ensemble.py. -/
def GSE.spectral_rigidity (minL maxL : ℝ) (gridSize : ℕ)
    (L : Option (List ℝ)) : Except String (List ℝ) :=
  Except.ok ((lGrid minL maxL gridSize L).map fun s =>
    1 / (4 * Real.pi ^ 2) *
      (Real.log (4 * Real.pi * s) + eulerGamma - 5 / 4 + Real.pi ^ 2 / 8))

/-- Embedding of GSE.level_variance from ensemble.py. -/
def GSE.level_variance (minL maxL : ℝ) (gridSize : ℕ)
    (L : Option (List ℝ)) : Except String (List ℝ) :=
  Except.ok ((lGrid minL maxL gridSize L).map fun s =>
    1 / (2 * Real.pi ^ 2) *
      (Real.log (4 * Real.pi * s) + eulerGamma + 1 + Real.pi ^ 2 / 8))

/-- Helper: a linspace with equal endpoints is a constant list. -/
theorem linspace_self (a : ℝ) (n : ℕ) : linspace a a n = List.replicate n a := by
  unfold linspace
  by_cases h0 : n = 0
  · subst h0; simp
  · by_cases h1 : n = 1
    · subst h1; simp
    · rw [if_neg h0, if_neg h1]
      have hf : (fun i : ℕ => a + (i : ℝ) * (a - a) / ((n : ℝ) - 1)) = fun _ : ℕ => a := by
        funext i; simp
      rw [hf]
      simp

/-- Helper: smooth_goe agrees pointwise with the specification formula, the
integral of the level density from -R to min(x, R). -/
theorem smoothGoe_eq (N : ℕ) (x : ℝ) : smoothGoe N x = goeUnfoldSpecFn N x := by
  unfold smoothGoe goeUnfoldSpecFn goeMax
  by_cases h : x > goeEnd N
  · rw [if_pos h, min_eq_right (le_of_lt h)]
  · rw [if_neg h, min_eq_left (not_lt.mp h)]

/-- Helper: the level density is nonnegative everywhere. -/
theorem R1_nonneg (N : ℕ) (t : ℝ) : 0 ≤ R1 N t := by
  unfold R1
  split
  · positivity
  · exact le_refl 0

/-- Helper: the branch in R1 is redundant over the reals, since sqrt vanishes
on nonpositive arguments; this closed form is continuous. -/
theorem R1_eq_sqrtForm (N : ℕ) (t : ℝ) :
    R1 N t = 1 / Real.pi * Real.sqrt (2 * N - t * t) := by
  unfold R1 goeEnd
  split
  · rfl
  · rename_i h
    have h2 : Real.sqrt (2 * N) ≤ |t| := not_lt.mp h
    have h3 : (2 : ℝ) * N ≤ t * t := by
      have h4 := mul_self_le_mul_self (Real.sqrt_nonneg (2 * (N : ℝ))) h2
      rwa [Real.mul_self_sqrt (by positivity), abs_mul_abs_self] at h4
    have h5 : Real.sqrt (2 * N - t * t) = 0 := by
      apply Real.sqrt_eq_zero_of_nonpos
      linarith
    rw [h5, mul_zero]

/-- Helper: the level density is a continuous function. -/
theorem R1_continuous (N : ℕ) : Continuous (R1 N) := by
  have h : R1 N = fun t => 1 / Real.pi * Real.sqrt (2 * N - t * t) :=
    funext (R1_eq_sqrtForm N)
  rw [h]
  exact continuous_const.mul
    (Real.continuous_sqrt.comp (continuous_const.sub (continuous_id.mul continuous_id)))

/-- Helper: the level density is integrable on every interval. -/
theorem R1_intervalIntegrable (N : ℕ) (a b : ℝ) :
    IntervalIntegrable (R1 N) MeasureTheory.volume a b :=
  (R1_continuous N).intervalIntegrable a b

/-- Helper: the level density vanishes left of the support. -/
theorem R1_zero_of_le (N : ℕ) {t : ℝ} (h : t ≤ -goeEnd N) : R1 N t = 0 := by
  have h1 : goeEnd N ≤ |t| := le_trans (by linarith) (neg_le_abs t)
  unfold R1
  exact if_neg (not_lt.mpr h1)

/-- Helper: the total semicircle mass is nonnegative. -/
theorem goeMax_nonneg (N : ℕ) : 0 ≤ goeMax N := by
  unfold goeMax
  apply intervalIntegral.integral_nonneg
  · have := Real.sqrt_nonneg (2 * (N : ℝ))
    unfold goeEnd
    linarith
  · intro u _
    exact R1_nonneg N u

/-- Helper: every value of smooth_goe lies between 0 and the total mass. -/
theorem smoothGoe_bounds (N : ℕ) (x : ℝ) :
    0 ≤ smoothGoe N x ∧ smoothGoe N x ≤ goeMax N := by
  rw [smoothGoe_eq]
  unfold goeUnfoldSpecFn
  have hR0 : 0 ≤ goeEnd N := Real.sqrt_nonneg _
  have hmR : min x (goeEnd N) ≤ goeEnd N := min_le_right x (goeEnd N)
  by_cases hm : -goeEnd N ≤ min x (goeEnd N)
  · constructor
    · exact intervalIntegral.integral_nonneg hm (fun u _ => R1_nonneg N u)
    · have hsplit := intervalIntegral.integral_add_adjacent_intervals
        (R1_intervalIntegrable N (-goeEnd N) (min x (goeEnd N)))
        (R1_intervalIntegrable N (min x (goeEnd N)) (goeEnd N))
      have h2 : 0 ≤ ∫ t in (min x (goeEnd N))..(goeEnd N), R1 N t :=
        intervalIntegral.integral_nonneg hmR (fun u _ => R1_nonneg N u)
      unfold goeMax
      linarith [hsplit]
  · push_neg at hm
    have hcongr : Set.EqOn (R1 N) (fun _ => (0 : ℝ))
        (Set.uIcc (-goeEnd N) (min x (goeEnd N))) := by
      intro t ht
      have hmem := Set.mem_uIcc.mp ht
      have hle : t ≤ -goeEnd N := by
        rcases hmem with ⟨ha, hb⟩ | ⟨ha, hb⟩
        · linarith
        · linarith
      exact R1_zero_of_le N hle
    have hz : (∫ t in (-goeEnd N)..(min x (goeEnd N)), R1 N t) = 0 := by
      rw [intervalIntegral.integral_congr hcongr]
      simp
    rw [hz]
    exact ⟨le_refl 0, goeMax_nonneg N⟩

/-- C1: for every Eigenvalues object holding N eigenvalues, unfold_goe
computes, with R = sqrt(2N) and level density rho(x) = (1/pi) sqrt(2N - x^2)
for abs x < R and 0 otherwise, for each eigenvalue x the definite integral of
rho from -R to min(x, R), returning the total mass MAX for every x > R, and
wraps the sorted results in an Unfolded whose originals are the input
eigenvalues. -/
theorem unfoldGoe_matches_semicircle_spec (eigs : List ℝ) :
    (unfoldGoe eigs).originals = eigs ∧
    (unfoldGoe eigs).unfolded =
      List.insertionSort (· ≤ ·) (eigs.map (goeUnfoldSpecFn eigs.length)) ∧
    ∀ x : ℝ, goeEnd eigs.length < x →
      smoothGoe eigs.length x = goeMax eigs.length := by
  refine ⟨rfl, ?_, ?_⟩
  · unfold unfoldGoe
    have h : smoothGoe eigs.length = goeUnfoldSpecFn eigs.length :=
      funext (smoothGoe_eq eigs.length)
    rw [h]
  · intro x hx
    unfold smoothGoe
    rw [if_pos hx]

/-- Witness for C1 at the empty spectrum and the out-of-support point 1. -/
theorem unfoldGoe_matches_semicircle_spec_witness :
    (unfoldGoe ([] : List ℝ)).originals = [] ∧
    (unfoldGoe ([] : List ℝ)).unfolded =
      List.insertionSort (· ≤ ·) (([] : List ℝ).map (goeUnfoldSpecFn 0)) ∧
    smoothGoe 0 1 = goeMax 0 := by
  have h := unfoldGoe_matches_semicircle_spec []
  exact ⟨h.1, h.2.1, h.2.2 1 (by norm_num [goeEnd])⟩

/-- C2: for any input eigenvalue sequence, the unfolded values stored in the
Unfolded result are non-decreasing, for every smoother family: both unfold
(poly, spline, gompertz) and unfold_goe re-sort the fitted unfolded values
ascending before wrapping them in Unfolded. -/
theorem unfold_unfolded_sorted (fit : List ℝ → SmoothMethod → ℕ → ℝ → List ℝ × (ℝ → ℝ))
    (emdDetrend : List ℝ → List ℝ) (eigs : List ℝ) (sm : SmoothMethod)
    (degree : ℕ) (splineSmooth : ℝ) (detrend : Bool) :
    List.Sorted (· ≤ ·) ((unfold fit emdDetrend eigs sm degree splineSmooth detrend).unfolded) ∧
    List.Sorted (· ≤ ·) ((unfoldGoe eigs).unfolded) := by
  constructor
  · cases sm <;> exact List.sorted_insertionSort _ _
  · exact List.sorted_insertionSort _ _

/-- C3: every unfolded value produced by unfold_goe lies within [0, MAX],
where MAX is the total integral of the level density over [-R, R] with
R = sqrt(2N). -/
theorem unfoldGoe_bounded (eigs : List ℝ) :
    ((unfoldGoe eigs).unfolded).Forall
      (fun u => 0 ≤ u ∧ u ≤ goeMax eigs.length) := by
  rw [List.forall_iff_forall_mem]
  intro u hu
  have hperm := List.perm_insertionSort ((· ≤ ·) : ℝ → ℝ → Prop)
    (eigs.map (smoothGoe eigs.length))
  have hu' : u ∈ eigs.map (smoothGoe eigs.length) := hperm.mem_iff.mp hu
  obtain ⟨x, _, rfl⟩ := List.mem_map.mp hu'
  exact smoothGoe_bounds eigs.length x

/-- C4: the source of trim_unfold_auto accepts prioritize_smoother but never
forwards it to TrimReport or to _get_autounfold_vals, so for every behaviour
of the trim report the returned Unfolded is the same whether
prioritize_smoother is True or False: the selection policy does not depend on
the argument, contradicting the documented smoother-first mode. -/
theorem trimUnfoldAuto_ignores_prioritizeSmoother
    (autounfoldVals : TrimReportCfg → List ℝ × List ℝ) (values : List ℝ)
    (maxTrim : ℝ) (maxIters : ℕ) (polyDegrees : List ℕ)
    (splineSmooths : List ℝ) (splineDegrees : List ℕ) (gompertz : Bool)
    (outlierTol : ℝ) :
    trimUnfoldAuto autounfoldVals values maxTrim maxIters polyDegrees
        splineSmooths splineDegrees gompertz true outlierTol =
      trimUnfoldAuto autounfoldVals values maxTrim maxIters polyDegrees
        splineSmooths splineDegrees gompertz false outlierTol := rfl

/-- C5 counterexample: GUE.nnnsd and GSE.nnnsd raise NotImplementedError on
the default (valid) grid, so not all four ensemble types implement all four
statistics as non-raising grid functions. -/
theorem nnnsd_not_implemented :
    GUE.nnnsd (0, 4) 1000 none = Except.error "NotImplementedError" ∧
    GSE.nnnsd (0, 4) 1000 none = Except.error "NotImplementedError" :=
  ⟨rfl, rfl⟩

/-- C5 amended: Poisson and GOE implement all four of nnsd, nnnsd,
spectral_rigidity and level_variance as non-raising grid functions, and GUE
and GSE do so for nnsd, spectral_rigidity and level_variance, but GUE.nnnsd
and GSE.nnnsd always raise NotImplementedError. -/
theorem ensemble_grid_functions_status :
    (∀ r n sp, ∃ l, Poisson.nnsd r n sp = Except.ok l) ∧
    (∀ r n sp, ∃ l, Poisson.nnnsd r n sp = Except.ok l) ∧
    (∀ a b g L, ∃ l, Poisson.spectral_rigidity a b g L = Except.ok l) ∧
    (∀ a b g L, ∃ l, Poisson.level_variance a b g L = Except.ok l) ∧
    (∀ r n sp, ∃ l, GOE.nnsd r n sp = Except.ok l) ∧
    (∀ r n sp, ∃ l, GOE.nnnsd r n sp = Except.ok l) ∧
    (∀ a b g L, ∃ l, GOE.spectral_rigidity a b g L = Except.ok l) ∧
    (∀ a b g L, ∃ l, GOE.level_variance a b g L = Except.ok l) ∧
    (∀ r n sp, ∃ l, GUE.nnsd r n sp = Except.ok l) ∧
    (∀ a b g L, ∃ l, GUE.spectral_rigidity a b g L = Except.ok l) ∧
    (∀ a b g L, ∃ l, GUE.level_variance a b g L = Except.ok l) ∧
    (∀ r n sp, ∃ l, GSE.nnsd r n sp = Except.ok l) ∧
    (∀ a b g L, ∃ l, GSE.spectral_rigidity a b g L = Except.ok l) ∧
    (∀ a b g L, ∃ l, GSE.level_variance a b g L = Except.ok l) ∧
    (∀ r n sp, GUE.nnnsd r n sp = Except.error "NotImplementedError") ∧
    (∀ r n sp, GSE.nnnsd r n sp = Except.error "NotImplementedError") := by
  refine ⟨?_, ?_, ?_, ?_, ?_, ?_, ?_, ?_, ?_, ?_, ?_, ?_, ?_, ?_, ?_, ?_⟩ <;>
    intros <;> first | exact ⟨_, rfl⟩ | rfl

/-- C6: constructing an Eigenvalues object from an input with fewer than 50
elements warns at most once per process (a second small construction after
the flag is set does not warn again), and the constructed object does not
depend on the warning flag at all. -/
theorem smallSampleWarning_once_and_pure (e1 e2 : List ℝ)
    (h1 : e1.length < 50) (h2 : e2.length < 50) :
    (mkEigenvalues ((mkEigenvalues false e1).2.1) e2).2.2 = false ∧
    ∀ w w' : Bool, (mkEigenvalues w e2).1 = (mkEigenvalues w' e2).1 := by
  constructor
  · have hd1 : decide (e1.length < 50) = true := decide_eq_true h1
    show (decide (e2.length < 50) &&
      !(false || (decide (e1.length < 50) && !false))) = false
    rw [hd1]
    cases decide (e2.length < 50) <;> rfl
  · intro w w'
    rfl

/-- Witness for C6 at two concrete one-element spectra. -/
theorem smallSampleWarning_once_and_pure_witness :
    (mkEigenvalues ((mkEigenvalues false [(1 : ℝ)]).2.1) [(2 : ℝ)]).2.2 = false ∧
    ∀ w w' : Bool, (mkEigenvalues w [(2 : ℝ)]).1 = (mkEigenvalues w' [(2 : ℝ)]).1 :=
  smallSampleWarning_once_and_pure [(1 : ℝ)] [(2 : ℝ)] (by simp) (by simp)

/-- C7 counterexample: get_best_trimmed with the out-of-set smoother value
foo raises ValueError with the literal message Unknown smoother., and that
message does not state the violated constraint (it mentions neither the
allowed values poly, spline, gompertz nor any must-phrase), refuting the
claim that every such error states the constraint violated. -/
theorem getBestTrimmed_unknown_smoother_message :
    getBestTrimmed (fun _ => (0, 0)) [] "foo" 7 0 7 0 0 =
      Except.error "Unknown smoother." ∧
    statesSmootherConstraint "Unknown smoother." = false ∧
    namesSmootherParam "Unknown smoother." = true := by
  refine ⟨rfl, ?_, ?_⟩ <;> decide

/-- C7 amended: get_best_trimmed called with a smoother value outside the set
of poly, spline and gompertz raises ValueError with message
Unknown smoother., which names the smoother parameter but does not state the
constraint it violated. -/
theorem getBestTrimmed_unknown_smoother_amended
    (bestIdx : TrimReportCfg → ℕ × ℕ) (vals : List ℝ) (s : String)
    (degree : ℕ) (splineSmooth : ℝ) (maxIters : ℕ) (maxTrim outlierTol : ℝ)
    (hp : s ≠ "poly") (hs : s ≠ "spline") (hg : s ≠ "gompertz") :
    getBestTrimmed bestIdx vals s degree splineSmooth maxIters maxTrim outlierTol =
      Except.error "Unknown smoother." ∧
    namesSmootherParam "Unknown smoother." = true ∧
    statesSmootherConstraint "Unknown smoother." = false := by
  unfold getBestTrimmed
  rw [if_neg hp, if_neg hs, if_neg hg]
  exact ⟨rfl, by decide, by decide⟩

/-- Witness for the amended C7 at the concrete smoother value bar. -/
theorem getBestTrimmed_unknown_smoother_amended_witness :
    getBestTrimmed (fun _ => (0, 0)) [] "bar" 3 0 7 0 0 =
      Except.error "Unknown smoother." ∧
    namesSmootherParam "Unknown smoother." = true ∧
    statesSmootherConstraint "Unknown smoother." = false :=
  getBestTrimmed_unknown_smoother_amended (fun _ => (0, 0)) [] "bar" 3 0 7 0 0
    (by decide) (by decide) (by decide)

/-- C8: running the trim search with max_iters = 0 yields exactly one
candidate trim window, equal to the full input range [0, length), for every
eigenvalue sequence (in particular every sorted one), every outlier step and
every maximum trim fraction. -/
theorem trimSearch_zero_iters (step : ℕ × ℕ → Option (ℕ × ℕ)) (maxTrim : ℝ)
    (eigs : List ℝ) :
    trimSearch step maxTrim 0 eigs = [(0, eigs.length)] := rfl

/-- C9: unfold with smoother goe returns exactly the same Unfolded as
unfold_goe, and the degree, spline_smooth and detrend arguments have no
effect in that case. -/
theorem unfold_goe_delegates (fit : List ℝ → SmoothMethod → ℕ → ℝ → List ℝ × (ℝ → ℝ))
    (emdDetrend : List ℝ → List ℝ) (eigs : List ℝ) (degree : ℕ)
    (splineSmooth : ℝ) (detrend : Bool) :
    unfold fit emdDetrend eigs SmoothMethod.goe degree splineSmooth detrend =
      unfoldGoe eigs := rfl

/-- C10: GSE.nnsd with spacings None returns 10000 copies of the density at
spacings_range[0], independently of n_points and of spacings_range[1]. -/
theorem GSE_nnsd_constant_grid (a b : ℝ) (n : ℕ) :
    GSE.nnsd (a, b) n none = Except.ok (List.replicate 10000 (gseNNSDdensity a)) ∧
    ∀ b' : ℝ, GSE.nnsd (a, b) n none = GSE.nnsd (a, b') n none := by
  have h : ∀ c : ℝ, GSE.nnsd (a, c) n none =
      Except.ok (List.replicate 10000 (gseNNSDdensity a)) := by
    intro c
    unfold GSE.nnsd
    simp only [Option.getD_none, linspace_self, List.map_replicate]
  exact ⟨h b, fun b' => (h b).trans (h b').symm⟩

end
